import Mathlib

/-
Verification of the posts-and-likes HTTP service (src/app.js).

The service is an Express app backed by a Sequelize/SQLite store with two
tables, posts and likes.  We embed the store as explicit lists of rows with
auto-increment counters, and each of the six request handlers as a pure
function from the store and the request data to a response and the next
store.  Request body fields are `Option String` (a JS `undefined` is
`none`); the JS falsiness check `!x` on a string field is `none` or the
empty string.
-/

namespace PostsApi

/-- A row of the `posts` table: surrogate integer key `id` (auto-increment),
unique caller-supplied string id, and required text content. -/
structure Post where
  id : Nat
  post_str_id : String
  content : String
deriving DecidableEq

/-- A row of the `likes` table: surrogate key `id`, the liking user's string
id, and the foreign key `postId` (Sequelize's `PostId`) to the owning post. -/
structure Like where
  id : Nat
  user_id_str : String
  postId : Nat
deriving DecidableEq

/-- The relational store: the two tables in insertion order plus the next
auto-increment value for each surrogate key. -/
structure Store where
  posts : List Post
  likes : List Like
  nextPostId : Nat
  nextLikeId : Nat
deriving DecidableEq

/-- JS falsiness of an optional string body field: `!x` is true when the
field is absent (`undefined`) or the empty string. -/
def strFalsy : Option String → Bool
  | none => true
  | some s => s == ""

/-- `Post.findOne({where: {post_str_id}})`: first posts row with the given
string id. -/
def findPost (s : Store) (pid : String) : Option Post :=
  s.posts.find? fun p => p.post_str_id == pid

/-- Resolving a like row's owning post through the `Like.belongsTo(Post)`
association: first posts row with the given surrogate id. -/
def findPostById (s : Store) (pid : Nat) : Option Post :=
  s.posts.find? fun p => p.id == pid

/-- `COUNT` of likes rows referencing the post with surrogate id `pid`
(used both by `post.countLikes()` and by the grouped count in the top
query). -/
def likeCount (s : Store) (pid : Nat) : Nat :=
  (s.likes.filter fun l => l.postId == pid).length

/-- Response of `POST /posts`. -/
inductive CreateRes where
  | invalidInput
  | conflict
  | created (internal_db_id : Nat) (post_str_id : String)
deriving DecidableEq

/-- HTTP status code of a `POST /posts` response. -/
def CreateRes.statusCode : CreateRes → Nat
  | .invalidInput => 400
  | .conflict => 409
  | .created _ _ => 201

/-- The `POST /posts` handler (src/app.js lines 80-108): validate both body
fields, then `findOrCreate` on `post_str_id`, answering 409 when the row
already existed and 201 with the new surrogate id otherwise. -/
def createPost (s : Store) (post_str_id content : Option String) :
    CreateRes × Store :=
  if strFalsy post_str_id || strFalsy content then
    (.invalidInput, s)
  else
    let pid := post_str_id.getD ""
    match findPost s pid with
    | some _ => (.conflict, s)
    | none =>
      let p : Post := ⟨s.nextPostId, pid, content.getD ""⟩
      (.created p.id p.post_str_id,
        { s with posts := s.posts ++ [p], nextPostId := s.nextPostId + 1 })

/-- Response of `POST /posts/:post_str_id/like`. -/
inductive LikeRes where
  | postNotFound
  | userIdRequired
  | alreadyLiked
  | liked
deriving DecidableEq

/-- HTTP status code of a like response. -/
def LikeRes.statusCode : LikeRes → Nat
  | .postNotFound => 404
  | .userIdRequired => 400
  | .alreadyLiked => 200
  | .liked => 201

/-- The `POST /posts/:post_str_id/like` handler (src/app.js lines 115-143):
resolve the post first, then validate `user_id_str`, then `findOrCreate`
the like row on the pair (`user_id_str`, post surrogate id). -/
def likePost (s : Store) (pid : String) (user_id_str : Option String) :
    LikeRes × Store :=
  match findPost s pid with
  | none => (.postNotFound, s)
  | some p =>
    if strFalsy user_id_str then (.userIdRequired, s)
    else
      let uid := user_id_str.getD ""
      match s.likes.find? fun l => l.user_id_str == uid && l.postId == p.id with
      | some _ => (.alreadyLiked, s)
      | none =>
        (.liked,
          { s with likes := s.likes ++ [⟨s.nextLikeId, uid, p.id⟩],
                   nextLikeId := s.nextLikeId + 1 })

/-- Response of `GET /posts/:post_str_id/likes`. -/
inductive CountRes where
  | postNotFound
  | counted (post_str_id : String) (like_count : Nat)
deriving DecidableEq

/-- HTTP status code of a count response. -/
def CountRes.statusCode : CountRes → Nat
  | .postNotFound => 404
  | .counted _ _ => 200

/-- The `GET /posts/:post_str_id/likes` handler (src/app.js lines 149-170):
resolve the post, then return its string id and `post.countLikes()`.  The
handler performs no write, so the store is returned unchanged. -/
def countLikesEP (s : Store) (pid : String) : CountRes × Store :=
  match findPost s pid with
  | none => (.postNotFound, s)
  | some p => (.counted p.post_str_id (likeCount s p.id), s)

/-- Response of `DELETE /posts/:post_str_id/like`. -/
inductive UnlikeRes where
  | postNotFound
  | userIdRequired
  | notLikedPreviously
  | unliked
deriving DecidableEq

/-- HTTP status code of an unlike response. -/
def UnlikeRes.statusCode : UnlikeRes → Nat
  | .postNotFound => 404
  | .userIdRequired => 400
  | .notLikedPreviously => 200
  | .unliked => 200

/-- The `DELETE /posts/:post_str_id/like` handler (src/app.js lines
177-208): resolve the post, validate `user_id_str`, then `Like.destroy` on
the pair; `deletedCount` is the number of rows removed. -/
def unlikePost (s : Store) (pid : String) (user_id_str : Option String) :
    UnlikeRes × Store :=
  match findPost s pid with
  | none => (.postNotFound, s)
  | some p =>
    if strFalsy user_id_str then (.userIdRequired, s)
    else
      let uid := user_id_str.getD ""
      let remaining :=
        s.likes.filter fun l => !(l.user_id_str == uid && l.postId == p.id)
      let deletedCount := s.likes.length - remaining.length
      if deletedCount = 0 then (.notLikedPreviously, { s with likes := remaining })
      else (.unliked, { s with likes := remaining })

/-- JS `parseInt(x, 10)` on an optional query-string value: `none` models
`NaN` (absent parameter or no leading digits).  Leading whitespace is
skipped, an optional sign is read, then the longest digit prefix. -/
def jsParseInt : Option String → Option Int
  | none => none
  | some str =>
    let cs := str.data.dropWhile fun c => c == ' ' || c == '\t' || c == '\n' || c == '\r'
    let sgn : Int := match cs with
      | '-' :: _ => -1
      | _ => 1
    let rest := match cs with
      | '-' :: r => r
      | '+' :: r => r
      | r => r
    let ds := rest.takeWhile Char.isDigit
    if ds.isEmpty then none
    else some (sgn * (ds.foldl (fun acc c => acc * 10 + (c.toNat - 48)) 0 : Nat))

/-- The effective limit of `GET /posts/top`:
`const limit = parseInt(req.query.limit, 10) || 5` — `NaN` and `0` are
falsy, so both fall back to 5; any other parsed integer (negative ones
included) is kept. -/
def effectiveLimit (q : Option String) : Int :=
  match jsParseInt q with
  | none => 5
  | some n => if n = 0 then 5 else n

/-- Insert a `(post_str_id, like_count)` row into a list sorted by
descending count, keeping it sorted. -/
def insertDesc (x : String × Nat) : List (String × Nat) → List (String × Nat)
  | [] => [x]
  | y :: ys => if y.2 < x.2 then x :: y :: ys else y :: insertDesc x ys

/-- Sort rows by descending like count (`ORDER BY like_count DESC`). -/
def sortDesc : List (String × Nat) → List (String × Nat)
  | [] => []
  | x :: xs => insertDesc x (sortDesc xs)

/-- A row list is sorted by descending like count. -/
def SortedDesc (l : List (String × Nat)) : Prop :=
  l.Pairwise fun a b => b.2 ≤ a.2

/-- The SQL `LIMIT n` applied by the store to the ordered rows.  SQLite
treats a negative limit as "no upper bound on the number of rows". -/
def limitTake (n : Int) (xs : List (String × Nat)) : List (String × Nat) :=
  if n < 0 then xs else xs.take n.toNat

/-- The candidate rows of `GET /posts/top` before the limit is applied: the
grouped `LEFT OUTER JOIN` of posts to likes produces one row per post (a
post with no matching likes keeps a count of 0), ordered by descending
count. -/
def topCandidates (s : Store) : List (String × Nat) :=
  sortDesc (s.posts.map fun p => (p.post_str_id, likeCount s p.id))

/-- The body of the `GET /posts/top` response (src/app.js lines 215-249):
the candidate rows truncated by the effective limit. -/
def topPosts (s : Store) (q : Option String) : List (String × Nat) :=
  limitTake (effectiveLimit q) (topCandidates s)

/-- The `GET /posts/top` handler as a store transition: a pure read. -/
def topPostsEP (s : Store) (q : Option String) :
    List (String × Nat) × Store :=
  (topPosts s q, s)

/-- Sequence a list of optional values: `none` as soon as one entry is
`none`.  Models the JS `userLikes.map(like => like.Post.post_str_id)`,
which throws (caught as a 500) if some like's `Post` is `null`. -/
def collectSome : List (Option α) → Option (List α)
  | [] => some []
  | none :: _ => none
  | some a :: rest => (collectSome rest).map fun l => a :: l

/-- The `GET /users/:user_id_str/liked-posts` handler (src/app.js lines
255-275): all like rows of the user in insertion order, each joined to its
owning post's string id; `none` models the 500 answer when a join row has
no post.  A pure read. -/
def likedPostsEP (s : Store) (uid : String) : Option (List String) × Store :=
  (collectSome ((s.likes.filter fun l => l.user_id_str == uid).map
      fun l => (findPostById s l.postId).map fun p => p.post_str_id), s)

/-- The unique index on (`user_id_str`, `PostId`) of the likes table
(src/app.js lines 59-64): no two like rows agree on both fields. -/
def LikesUnique (s : Store) : Prop :=
  s.likes.Pairwise fun a b => ¬(a.user_id_str = b.user_id_str ∧ a.postId = b.postId)

/-- Number of distinct users holding a like on the post with surrogate id
`pid`. -/
def distinctLikers (s : Store) (pid : Nat) : Nat :=
  (((s.likes.filter fun l => l.postId == pid).map fun l => l.user_id_str).dedup).length

/-- Referential integrity of the likes table: every like row's `postId`
resolves to a posts row. -/
def PostRefsValid (s : Store) : Prop :=
  ∀ l ∈ s.likes, (findPostById s l.postId).isSome

/-! ### Helper lemmas about the descending sort -/

theorem mem_insertDesc {x y : String × Nat} {l : List (String × Nat)} :
    y ∈ insertDesc x l ↔ y = x ∨ y ∈ l := by
  induction l with
  | nil => simp [insertDesc]
  | cons z zs ih =>
    simp only [insertDesc]
    split
    · simp [List.mem_cons]
    · simp only [List.mem_cons, ih]
      tauto

theorem sortedDesc_insertDesc {x : String × Nat} {l : List (String × Nat)}
    (h : SortedDesc l) : SortedDesc (insertDesc x l) := by
  induction l with
  | nil => simp [insertDesc, SortedDesc]
  | cons y ys ih =>
    simp only [SortedDesc, List.pairwise_cons] at h
    obtain ⟨hy, hys⟩ := h
    simp only [SortedDesc, insertDesc]
    split
    · rename_i hlt
      refine List.Pairwise.cons ?_ (List.Pairwise.cons hy hys)
      intro z hz
      rcases List.mem_cons.mp hz with rfl | hz
      · exact Nat.le_of_lt hlt
      · exact Nat.le_trans (hy z hz) (Nat.le_of_lt hlt)
    · rename_i hnlt
      refine List.Pairwise.cons ?_ (ih hys)
      intro z hz
      rcases mem_insertDesc.mp hz with rfl | hz
      · exact Nat.le_of_not_lt hnlt
      · exact hy z hz

theorem mem_sortDesc {y : String × Nat} {l : List (String × Nat)} :
    y ∈ sortDesc l ↔ y ∈ l := by
  induction l with
  | nil => simp [sortDesc]
  | cons z zs ih => simp [sortDesc, mem_insertDesc, ih]

theorem sortedDesc_sortDesc (l : List (String × Nat)) : SortedDesc (sortDesc l) := by
  induction l with
  | nil => simp [sortDesc, SortedDesc]
  | cons x xs ih => exact sortedDesc_insertDesc ih

theorem limitTake_sublist (n : Int) (xs : List (String × Nat)) :
    (limitTake n xs).Sublist xs := by
  unfold limitTake
  split
  · exact List.Sublist.refl xs
  · exact List.take_sublist _ _

theorem limitTake_length_le (n : Int) (hn : 0 ≤ n) (xs : List (String × Nat)) :
    ((limitTake n xs).length : Int) ≤ n := by
  unfold limitTake
  rw [if_neg (by omega)]
  have h1 : (xs.take n.toNat).length ≤ n.toNat := by
    simp [List.length_take]
  calc ((xs.take n.toNat).length : Int) ≤ (n.toNat : Int) := by exact_mod_cast h1
    _ = n := Int.toNat_of_nonneg hn

/-! ### C1 -/

/-- C1: creating a post twice with the same `post_str_id` (valid inputs, id
not yet taken) answers 201 with the fresh surrogate id first, 409 second,
and the second call leaves the store — in particular the existing row and
its content — unchanged. -/
theorem create_post_twice (s : Store) (pid c c2 : String)
    (hpid : pid ≠ "") (hc : c ≠ "") (hc2 : c2 ≠ "")
    (hfresh : findPost s pid = none) :
    (createPost s (some pid) (some c)).1 = CreateRes.created s.nextPostId pid ∧
    CreateRes.statusCode (createPost s (some pid) (some c)).1 = 201 ∧
    (createPost (createPost s (some pid) (some c)).2 (some pid) (some c2)).1 =
      CreateRes.conflict ∧
    CreateRes.statusCode CreateRes.conflict = 409 ∧
    (createPost (createPost s (some pid) (some c)).2 (some pid) (some c2)).2 =
      (createPost s (some pid) (some c)).2 := by
  have hb1 : strFalsy (some pid) = false := by simp [strFalsy]; exact hpid
  have hb2 : strFalsy (some c) = false := by simp [strFalsy]; exact hc
  have hb3 : strFalsy (some c2) = false := by simp [strFalsy]; exact hc2
  have h1 : createPost s (some pid) (some c) =
      (CreateRes.created s.nextPostId pid,
        { s with posts := s.posts ++ [⟨s.nextPostId, pid, c⟩],
                 nextPostId := s.nextPostId + 1 }) := by
    simp [createPost, hb1, hb2, hfresh]
  have h2 : findPost (createPost s (some pid) (some c)).2 pid =
      some ⟨s.nextPostId, pid, c⟩ := by
    rw [h1]
    simp only [findPost] at hfresh ⊢
    simp [List.find?_append, hfresh]
  rw [h1] at h2 ⊢
  refine ⟨rfl, rfl, ?_, rfl, ?_⟩
  · simp [createPost, hb1, hb3, h2]
  · simp [createPost, hb1, hb3, h2]

/-- C1 witness. -/
theorem create_post_twice_witness :
    (createPost ⟨[], [], 1, 1⟩ (some "p1") (some "hello")).1 =
      CreateRes.created 1 "p1" ∧
    CreateRes.statusCode (createPost ⟨[], [], 1, 1⟩ (some "p1") (some "hello")).1 = 201 ∧
    (createPost (createPost ⟨[], [], 1, 1⟩ (some "p1") (some "hello")).2
      (some "p1") (some "other")).1 = CreateRes.conflict ∧
    CreateRes.statusCode CreateRes.conflict = 409 ∧
    (createPost (createPost ⟨[], [], 1, 1⟩ (some "p1") (some "hello")).2
      (some "p1") (some "other")).2 =
      (createPost ⟨[], [], 1, 1⟩ (some "p1") (some "hello")).2 :=
  create_post_twice ⟨[], [], 1, 1⟩ "p1" "hello" "other"
    (by decide) (by decide) (by decide) (by decide)

/-! ### C2 -/

/-- C2 counterexample: a like request with a missing `user_id_str` is NOT
always answered 400 — when the post does not exist the handler answers 404,
because it resolves the post (a store read) before validating the body.
With the post present the same request does get 400. -/
theorem missing_user_id_counterexample :
    (likePost ⟨[], [], 1, 1⟩ "p1" none).1 = LikeRes.postNotFound ∧
    LikeRes.statusCode (likePost ⟨[], [], 1, 1⟩ "p1" none).1 = 404 ∧
    (likePost ⟨[⟨1, "p1", "hello"⟩], [], 2, 1⟩ "p1" none).1 =
      LikeRes.userIdRequired ∧
    (unlikePost ⟨[], [], 1, 1⟩ "p1" none).1 = UnlikeRes.postNotFound := by
  decide

/-- C2 amended: create-post answers 400 on a missing (or empty) required
field with the store untouched and without reading it (the response does
not depend on the store).  Like and unlike resolve the post first: with a
missing `user_id_str` they answer 404 when the post is absent and 400 when
it exists; in every such case the store is unchanged (no write). -/
theorem missing_field_behavior (s : Store) (a b : Option String) (pid : String)
    (hmiss : strFalsy a = true ∨ strFalsy b = true) :
    createPost s a b = (CreateRes.invalidInput, s) ∧
    (findPost s pid = none →
      likePost s pid none = (LikeRes.postNotFound, s) ∧
      unlikePost s pid none = (UnlikeRes.postNotFound, s)) ∧
    (∀ p, findPost s pid = some p →
      likePost s pid none = (LikeRes.userIdRequired, s) ∧
      unlikePost s pid none = (UnlikeRes.userIdRequired, s)) := by
  refine ⟨?_, ?_, ?_⟩
  · rcases hmiss with h | h <;> simp [createPost, h]
  · intro h
    constructor <;> simp [likePost, unlikePost, h]
  · intro p h
    constructor <;> simp [likePost, unlikePost, h, strFalsy]

/-- C2 witness. -/
theorem missing_field_behavior_witness :
    createPost ⟨[], [], 1, 1⟩ none (some "x") = (CreateRes.invalidInput, ⟨[], [], 1, 1⟩) ∧
    likePost ⟨[], [], 1, 1⟩ "p1" none = (LikeRes.postNotFound, ⟨[], [], 1, 1⟩) ∧
    unlikePost ⟨[], [], 1, 1⟩ "p1" none = (UnlikeRes.postNotFound, ⟨[], [], 1, 1⟩) :=
  ⟨(missing_field_behavior ⟨[], [], 1, 1⟩ none (some "x") "p1" (Or.inl (by decide))).1,
   ((missing_field_behavior ⟨[], [], 1, 1⟩ none (some "x") "p1"
      (Or.inl (by decide))).2.1 (by decide)).1,
   ((missing_field_behavior ⟨[], [], 1, 1⟩ none (some "x") "p1"
      (Or.inl (by decide))).2.1 (by decide)).2⟩

/-! ### C3 -/

theorem find?_like_none_of_likeCount_zero (s : Store) (pidN : Nat) (uid : String)
    (h0 : likeCount s pidN = 0) :
    (s.likes.find? fun l => l.user_id_str == uid && l.postId == pidN) = none := by
  rw [List.find?_eq_none]
  intro l hl hpred
  have hmem : l ∈ s.likes.filter fun l => l.postId == pidN := by
    rw [List.mem_filter]
    exact ⟨hl, by simpa using (Bool.and_eq_true _ _ |>.mp hpred).2⟩
  rw [likeCount, List.length_eq_zero] at h0
  simp [h0] at hmem

/-- C3: for an existing post with no likes yet and a valid user id, liking
twice answers 201 `liked` then 200 `already_liked`, and the post's like
count afterwards is 1, not 2: the second call inserts no second row. -/
theorem like_twice_idempotent (s : Store) (pid uid : String) (p : Post)
    (hp : findPost s pid = some p) (hu : uid ≠ "")
    (h0 : likeCount s p.id = 0) :
    (likePost s pid (some uid)).1 = LikeRes.liked ∧
    LikeRes.statusCode LikeRes.liked = 201 ∧
    (likePost (likePost s pid (some uid)).2 pid (some uid)).1 =
      LikeRes.alreadyLiked ∧
    LikeRes.statusCode LikeRes.alreadyLiked = 200 ∧
    likeCount (likePost (likePost s pid (some uid)).2 pid (some uid)).2 p.id = 1 := by
  have hb : strFalsy (some uid) = false := by simp [strFalsy]; exact hu
  have hfind := find?_like_none_of_likeCount_zero s p.id uid h0
  have h1 : likePost s pid (some uid) =
      (LikeRes.liked, Store.mk s.posts (s.likes ++ [⟨s.nextLikeId, uid, p.id⟩])
        s.nextPostId (s.nextLikeId + 1)) := by
    simp [likePost, hp, hb, hfind]
  have hp1 : findPost (Store.mk s.posts (s.likes ++ [⟨s.nextLikeId, uid, p.id⟩])
      s.nextPostId (s.nextLikeId + 1)) pid = some p := hp
  have hfind1 : ((Store.mk s.posts (s.likes ++ [⟨s.nextLikeId, uid, p.id⟩])
      s.nextPostId (s.nextLikeId + 1)).likes.find?
      fun l => l.user_id_str == uid && l.postId == p.id) =
      some ⟨s.nextLikeId, uid, p.id⟩ := by
    simp [List.find?_append, hfind]
  have h2 : likePost (Store.mk s.posts (s.likes ++ [⟨s.nextLikeId, uid, p.id⟩])
      s.nextPostId (s.nextLikeId + 1)) pid (some uid) =
      (LikeRes.alreadyLiked, Store.mk s.posts (s.likes ++ [⟨s.nextLikeId, uid, p.id⟩])
        s.nextPostId (s.nextLikeId + 1)) := by
    simp [likePost, hp1, hb, hfind1]
  rw [likeCount, List.length_eq_zero] at h0
  refine ⟨by simp [h1], rfl, by simp [h1, h2], rfl, ?_⟩
  simp [h1, h2, likeCount, List.filter_append, h0]

/-- C3 witness. -/
theorem like_twice_idempotent_witness :
    (likePost ⟨[⟨1, "p1", "hello"⟩], [], 2, 1⟩ "p1" (some "u1")).1 = LikeRes.liked ∧
    LikeRes.statusCode LikeRes.liked = 201 ∧
    (likePost (likePost ⟨[⟨1, "p1", "hello"⟩], [], 2, 1⟩ "p1" (some "u1")).2
      "p1" (some "u1")).1 = LikeRes.alreadyLiked ∧
    LikeRes.statusCode LikeRes.alreadyLiked = 200 ∧
    likeCount (likePost (likePost ⟨[⟨1, "p1", "hello"⟩], [], 2, 1⟩ "p1"
      (some "u1")).2 "p1" (some "u1")).2 1 = 1 :=
  like_twice_idempotent ⟨[⟨1, "p1", "hello"⟩], [], 2, 1⟩ "p1" "u1"
    ⟨1, "p1", "hello"⟩ (by decide) (by decide) (by decide)

/-! ### C4 -/

/-- C4: unliking an existing post on which the user holds no like answers
200 `not_liked_previously` and leaves the store — hence every like count —
unchanged. -/
theorem unlike_without_like (s : Store) (pid uid : String) (p : Post)
    (hp : findPost s pid = some p) (hu : uid ≠ "")
    (hno : ∀ l ∈ s.likes, ¬(l.user_id_str = uid ∧ l.postId = p.id)) :
    unlikePost s pid (some uid) = (UnlikeRes.notLikedPreviously, s) ∧
    UnlikeRes.statusCode UnlikeRes.notLikedPreviously = 200 := by
  have hb : strFalsy (some uid) = false := by simp [strFalsy]; exact hu
  have hkeep : (s.likes.filter fun l =>
      !(l.user_id_str == uid && l.postId == p.id)) = s.likes := by
    rw [List.filter_eq_self]
    intro l hl
    simpa using not_and_or.mp (hno l hl)
  refine ⟨?_, rfl⟩
  simp only [unlikePost, hp, hb, Option.getD_some]
  rw [hkeep]
  simp

/-- C4 witness. -/
theorem unlike_without_like_witness :
    unlikePost ⟨[⟨1, "p1", "hello"⟩], [], 2, 1⟩ "p1" (some "u1") =
      (UnlikeRes.notLikedPreviously, ⟨[⟨1, "p1", "hello"⟩], [], 2, 1⟩) ∧
    UnlikeRes.statusCode UnlikeRes.notLikedPreviously = 200 :=
  unlike_without_like ⟨[⟨1, "p1", "hello"⟩], [], 2, 1⟩ "p1" "u1"
    ⟨1, "p1", "hello"⟩ (by decide) (by decide) (by decide)

/-! ### C5 -/

/-- C5 counterexample: `parseInt` can produce a negative limit (e.g.
`limit=-1`), which `|| 5` keeps because only `0` and `NaN` are falsy; the
store treats a negative `LIMIT` as unbounded, so the result's length is not
at most the parsed limit. -/
theorem top_posts_limit_counterexample :
    ¬(((topPosts ⟨[⟨1, "a", "x"⟩], [], 2, 1⟩ (some "-1")).length : Int) ≤
      effectiveLimit (some "-1")) := by
  decide

/-- C5 amended: the top-posts result is always sorted by descending
`like_count`, and its length is at most the effective limit whenever that
limit is nonnegative (the default 5 applies when the parameter is absent,
unparsable or `0`); a negative parsed limit imposes no bound. -/
theorem top_posts_sorted_and_bounded (s : Store) (q : Option String) :
    SortedDesc (topPosts s q) ∧
    (0 ≤ effectiveLimit q → ((topPosts s q).length : Int) ≤ effectiveLimit q) := by
  constructor
  · exact List.Pairwise.sublist (limitTake_sublist _ _) (sortedDesc_sortDesc _)
  · intro h
    exact limitTake_length_le _ h _

/-- C5 witness. -/
theorem top_posts_sorted_and_bounded_witness :
    SortedDesc (topPosts ⟨[⟨1, "a", "x"⟩], [], 2, 1⟩ none) ∧
    ((topPosts ⟨[⟨1, "a", "x"⟩], [], 2, 1⟩ none).length : Int) ≤ effectiveLimit none :=
  ⟨(top_posts_sorted_and_bounded ⟨[⟨1, "a", "x"⟩], [], 2, 1⟩ none).1,
   (top_posts_sorted_and_bounded ⟨[⟨1, "a", "x"⟩], [], 2, 1⟩ none).2 (by decide)⟩

/-! ### C6 -/

/-- C6: a post with zero likes still appears among the top-posts candidate
rows, with a `like_count` of 0 — the grouped join preserves posts with no
matching likes. -/
theorem zero_like_post_is_candidate (s : Store) (p : Post)
    (hp : p ∈ s.posts) (h0 : likeCount s p.id = 0) :
    (p.post_str_id, 0) ∈ topCandidates s := by
  have hm : (p.post_str_id, likeCount s p.id) ∈
      s.posts.map fun p => (p.post_str_id, likeCount s p.id) :=
    List.mem_map_of_mem _ hp
  rw [h0] at hm
  unfold topCandidates
  exact mem_sortDesc.mpr hm

/-- C6 witness. -/
theorem zero_like_post_is_candidate_witness :
    ("a", 0) ∈ topCandidates ⟨[⟨1, "a", "x"⟩], [], 2, 1⟩ :=
  zero_like_post_is_candidate ⟨[⟨1, "a", "x"⟩], [], 2, 1⟩ ⟨1, "a", "x"⟩
    (by decide) (by decide)

/-! ### C10 -/

/-- C10: a `limit` query parameter that parses to `0` is falsy in
`parseInt(req.query.limit, 10) || 5`, so the effective limit is the
default 5, not 0: the endpoint returns up to 5 candidate rows rather than
an empty list (e.g. one row for a one-post store). -/
theorem limit_zero_defaults_to_five (s : Store) :
    effectiveLimit (some "0") = 5 ∧
    topPosts s (some "0") = (topCandidates s).take 5 ∧
    topPosts ⟨[⟨1, "a", "x"⟩], [], 2, 1⟩ (some "0") = [("a", 0)] := by
  have h5 : effectiveLimit (some "0") = 5 := by decide
  refine ⟨h5, ?_, by decide⟩
  unfold topPosts
  rw [h5]
  unfold limitTake
  rw [if_neg (by omega)]
  rfl

/-! ### C7 -/

theorem countLikesEP_store (s : Store) (pid : String) :
    (countLikesEP s pid).2 = s := by
  unfold countLikesEP
  cases findPost s pid <;> rfl

theorem createPost_likes (s : Store) (a b : Option String) :
    (createPost s a b).2.likes = s.likes := by
  unfold createPost
  split
  · rfl
  · dsimp only
    split <;> rfl

/-- C7: the unique index on (`user_id_str`, `PostId`) is an invariant of
the exposed operations: create post, like, unlike and the three read
endpoints each preserve the property that a given user holds at most one
like row for a given post. -/
theorem likes_unique_invariant (s : Store) (h : LikesUnique s)
    (a b u q : Option String) (pid uid : String) :
    LikesUnique (createPost s a b).2 ∧ LikesUnique (likePost s pid u).2 ∧
    LikesUnique (unlikePost s pid u).2 ∧ LikesUnique (countLikesEP s pid).2 ∧
    LikesUnique (topPostsEP s q).2 ∧ LikesUnique (likedPostsEP s uid).2 := by
  refine ⟨?_, ?_, ?_, ?_, h, h⟩
  · unfold LikesUnique
    rw [createPost_likes]
    exact h
  · unfold likePost
    split
    · exact h
    · rename_i p hp
      split
      · exact h
      · dsimp only
        split
        · exact h
        · rename_i hfind
          unfold LikesUnique
          dsimp only
          rw [List.pairwise_append]
          refine ⟨h, List.pairwise_singleton _ _, ?_⟩
          intro x hx y hy
          rw [List.mem_singleton] at hy
          subst hy
          rw [List.find?_eq_none] at hfind
          have hne := hfind x hx
          simp only [Bool.and_eq_true, beq_iff_eq] at hne
          dsimp only
          tauto
  · unfold unlikePost
    split
    · exact h
    · split
      · exact h
      · dsimp only
        split <;>
        · unfold LikesUnique
          dsimp only
          exact List.Pairwise.sublist (List.filter_sublist _) h
  · rw [countLikesEP_store]
    exact h

/-- C7 witness. -/
theorem likes_unique_invariant_witness :
    LikesUnique (createPost ⟨[], [], 1, 1⟩ (some "p1") (some "x")).2 ∧
    LikesUnique (likePost ⟨[], [], 1, 1⟩ "p1" (some "u1")).2 ∧
    LikesUnique (unlikePost ⟨[], [], 1, 1⟩ "p1" (some "u1")).2 ∧
    LikesUnique (countLikesEP ⟨[], [], 1, 1⟩ "p1").2 ∧
    LikesUnique (topPostsEP ⟨[], [], 1, 1⟩ none).2 ∧
    LikesUnique (likedPostsEP ⟨[], [], 1, 1⟩ "u1").2 :=
  likes_unique_invariant ⟨[], [], 1, 1⟩ (by unfold LikesUnique; decide)
    (some "p1") (some "x") (some "u1") none "p1" "u1"

/-! ### C8 -/

theorem likeCount_eq_distinctLikers (s : Store) (pidN : Nat) (h : LikesUnique s) :
    likeCount s pidN = distinctLikers s pidN := by
  unfold likeCount distinctLikers
  have hsub : (s.likes.filter fun l => l.postId == pidN).Pairwise
      fun a b => ¬(a.user_id_str = b.user_id_str ∧ a.postId = b.postId) :=
    List.Pairwise.sublist (List.filter_sublist _) h
  have hnd : ((s.likes.filter fun l => l.postId == pidN).map
      fun l => l.user_id_str).Nodup := by
    simp only [List.Nodup, List.pairwise_map]
    refine hsub.imp_of_mem ?_
    intro a b ha hb hR heq
    apply hR
    refine ⟨heq, ?_⟩
    have ha2 := (List.mem_filter.mp ha).2
    have hb2 := (List.mem_filter.mp hb).2
    simp only [beq_iff_eq] at ha2 hb2
    rw [ha2, hb2]
  rw [List.dedup_eq_self.mpr hnd, List.length_map]

/-- C8: for an existing post the count endpoint answers 200 echoing the
post's string id together with the number of distinct users holding a like
on it (0 when there are none, which is not an error); for a nonexistent
`post_str_id` it answers 404.  The store is unchanged either way. -/
theorem count_likes_endpoint (s : Store) (pid : String) (h : LikesUnique s) :
    (findPost s pid = none →
      countLikesEP s pid = (CountRes.postNotFound, s) ∧
      CountRes.statusCode CountRes.postNotFound = 404) ∧
    (∀ p, findPost s pid = some p →
      countLikesEP s pid = (CountRes.counted pid (distinctLikers s p.id), s) ∧
      CountRes.statusCode (CountRes.counted pid (distinctLikers s p.id)) = 200) := by
  constructor
  · intro hnone
    refine ⟨?_, rfl⟩
    unfold countLikesEP
    rw [hnone]
  · intro p hp
    have hp2 : s.posts.find? (fun x => x.post_str_id == pid) = some p := hp
    have hpid : p.post_str_id = pid := by simpa using List.find?_some hp2
    refine ⟨?_, rfl⟩
    unfold countLikesEP
    simp only [hp]
    rw [hpid, likeCount_eq_distinctLikers s p.id h]

/-- C8 witness. -/
theorem count_likes_endpoint_witness :
    countLikesEP ⟨[⟨1, "p1", "x"⟩], [⟨1, "u1", 1⟩], 2, 2⟩ "p1" =
      (CountRes.counted "p1"
        (distinctLikers ⟨[⟨1, "p1", "x"⟩], [⟨1, "u1", 1⟩], 2, 2⟩ 1),
       ⟨[⟨1, "p1", "x"⟩], [⟨1, "u1", 1⟩], 2, 2⟩) ∧
    CountRes.statusCode (CountRes.counted "p1"
      (distinctLikers ⟨[⟨1, "p1", "x"⟩], [⟨1, "u1", 1⟩], 2, 2⟩ 1)) = 200 :=
  (count_likes_endpoint ⟨[⟨1, "p1", "x"⟩], [⟨1, "u1", 1⟩], 2, 2⟩ "p1"
    (by unfold LikesUnique; decide)).2 ⟨1, "p1", "x"⟩ (by decide)

/-! ### C9 -/

theorem collectSome_of_all_isSome {α : Type} (d : α) :
    ∀ (xs : List (Option α)), (∀ x ∈ xs, x.isSome) →
      collectSome xs = some (xs.map fun x => x.getD d)
  | [], _ => rfl
  | none :: rest, h => absurd (h none (List.mem_cons_self _ _)) (by simp)
  | some a :: rest, h => by
    have ih := collectSome_of_all_isSome d rest fun x hx => h x (List.mem_cons_of_mem _ hx)
    simp [collectSome, ih]

/-- C9: when every like row's post reference resolves (as in every state
the operations produce), the liked-posts endpoint answers 200 with exactly
one `post_str_id` per like row of the user, in insertion order of the like
rows — the image of the user's like rows, in order, under the join to the
owning post; when the user has no likes the filter is empty and the result
is `some []`, not an error.  The store is unchanged. -/
theorem liked_posts_endpoint (s : Store) (uid : String) (h : PostRefsValid s) :
    (likedPostsEP s uid).1 =
      some ((s.likes.filter fun l => l.user_id_str == uid).map
        fun l => ((findPostById s l.postId).map fun p => p.post_str_id).getD "") ∧
    (likedPostsEP s uid).2 = s := by
  refine ⟨?_, rfl⟩
  unfold likedPostsEP
  dsimp only
  rw [collectSome_of_all_isSome ""]
  · rw [List.map_map]
    rfl
  · intro x hx
    obtain ⟨l, hl, rfl⟩ := List.mem_map.mp hx
    simpa using h l (List.mem_filter.mp hl).1

/-- C9 witness: a user who liked posts "A" and "C" but not "B". -/
theorem liked_posts_endpoint_witness :
    (likedPostsEP ⟨[⟨1, "A", "x"⟩, ⟨2, "B", "y"⟩, ⟨3, "C", "z"⟩],
        [⟨1, "u1", 1⟩, ⟨2, "u1", 3⟩], 4, 3⟩ "u1").1 =
      some ((Store.likes ⟨[⟨1, "A", "x"⟩, ⟨2, "B", "y"⟩, ⟨3, "C", "z"⟩],
          [⟨1, "u1", 1⟩, ⟨2, "u1", 3⟩], 4, 3⟩).filter
            (fun l => l.user_id_str == "u1") |>.map
        fun l => ((findPostById ⟨[⟨1, "A", "x"⟩, ⟨2, "B", "y"⟩, ⟨3, "C", "z"⟩],
          [⟨1, "u1", 1⟩, ⟨2, "u1", 3⟩], 4, 3⟩ l.postId).map
            fun p => p.post_str_id).getD "") ∧
    (likedPostsEP ⟨[⟨1, "A", "x"⟩, ⟨2, "B", "y"⟩, ⟨3, "C", "z"⟩],
        [⟨1, "u1", 1⟩, ⟨2, "u1", 3⟩], 4, 3⟩ "u1").2 =
      ⟨[⟨1, "A", "x"⟩, ⟨2, "B", "y"⟩, ⟨3, "C", "z"⟩],
        [⟨1, "u1", 1⟩, ⟨2, "u1", 3⟩], 4, 3⟩ :=
  liked_posts_endpoint ⟨[⟨1, "A", "x"⟩, ⟨2, "B", "y"⟩, ⟨3, "C", "z"⟩],
    [⟨1, "u1", 1⟩, ⟨2, "u1", 3⟩], 4, 3⟩ "u1" (by unfold PostRefsValid; decide)

end PostsApi
